import Mathlib

/-!
Verification of the apify-store-scraper repository against its
natural-language specification.

The embedding models:
* `src/filters.ts` (`buildFilters`) including the `JSON.stringify`
  string-escaping it relies on;
* `src/main.ts`: the input record, the search parameters passed to the
  Algolia client inside `requestHandler`, the hit-to-dataset-item mapping,
  the JSON payload attached to the single crawler request, and the
  crawler run over its one-element request queue, with the remote search
  index modelled as the ordered list of records matching the query.

JavaScript `undefined`, `null` and typed values are modelled explicitly so
that absence, `null` and falsy values can be distinguished exactly as the
source distinguishes (or fails to distinguish) them.
-/

namespace ApifyStore

/-- A JavaScript value as it may appear in an untrusted raw record
returned by the remote search index. -/
inductive JSValue where
  | undef
  | null
  | str (s : String)
  | num (n : Int)
  | bool (b : Bool)
  | strArr (xs : List String)
  deriving DecidableEq, Repr

/-- An optional string-typed input field: absent (`undefined` in JS),
`null`, or a string value. -/
inductive StrField where
  | undef
  | null
  | str (s : String)
  deriving DecidableEq, Repr

/-- An optional number-typed input field: absent, `null`, or a number. -/
inductive NumField where
  | undef
  | null
  | num (n : Int)
  deriving DecidableEq, Repr

/-- JavaScript truthiness of an optional string field: `undefined`, `null`
and the empty string are falsy; every non-empty string is truthy. -/
def StrField.truthy : StrField → Bool
  | .str s => s ≠ ""
  | _ => false

/-- The string carried by a field (the empty string when there is none);
only meaningful under a `truthy` guard, mirroring the source pattern
of reading the field again inside the `if` that tested it. -/
def StrField.getStr : StrField → String
  | .str s => s
  | _ => ""

/-- `x || undefined` from the source: a truthy string survives, every
falsy value (absent, `null`, `""`) becomes `undefined`, i.e. `none`. -/
def StrField.orUndefined (f : StrField) : Option String :=
  if f.truthy then some f.getStr else none

/-- `x ?? d` from the source: the nullish-coalescing default, applied to
the `limit` field. `undefined` and `null` fall back to `d`; any number,
including `0`, survives. -/
def NumField.nullish (f : NumField) (d : Int) : Int :=
  match f with
  | .num n => n
  | _ => d

/-- The actor input object (`Input` in `src/main.ts`): all four fields are
optional and nullable. -/
structure Input where
  actorId : StrField := .undef
  limit : NumField := .undef
  query : StrField := .undef
  username : StrField := .undef
  deriving DecidableEq, Repr

/-- Lower-case hexadecimal digit, for JSON `\u00xx` escapes. -/
def hexDigit (n : Nat) : Char :=
  if n < 10 then Char.ofNat (48 + n) else Char.ofNat (87 + n)

/-- How `JSON.stringify` renders one character of a string: `"` and `\`
are preceded by a backslash; the control characters U+0008, U+0009,
U+000A, U+000C, U+000D get their two-character escapes; every other
control character below U+0020 becomes `\u00xx`; all remaining characters
are emitted unchanged. -/
def jsonEscapeChar (c : Char) : String :=
  if c = '"' then "\\\""
  else if c = '\\' then "\\\\"
  else if c = '\x08' then "\\b"
  else if c = '\t' then "\\t"
  else if c = '\n' then "\\n"
  else if c = '\x0c' then "\\f"
  else if c = '\r' then "\\r"
  else if c.toNat < 0x20 then
    String.mk ['\\', 'u', '0', '0', hexDigit (c.toNat / 16), hexDigit (c.toNat % 16)]
  else String.singleton c

/-- `JSON.stringify` applied to a string value: the escaped characters
wrapped in double quotes. -/
def jsonStringify (s : String) : String :=
  "\"" ++ String.join (s.data.map jsonEscapeChar) ++ "\""

/-- `buildFilters` from `src/filters.ts`: push `objectID:<stringified>`
when `actorId` is truthy, then `username:<stringified>` when `username`
is truthy; return `undefined` when nothing was pushed, otherwise the
pushed expressions joined with `" AND "`. -/
def buildFilters (input : Input) : Option String :=
  let filters : List String :=
    (if input.actorId.truthy
      then ["objectID:" ++ jsonStringify input.actorId.getStr] else [])
    ++
    (if input.username.truthy
      then ["username:" ++ jsonStringify input.username.getStr] else [])
  if filters.isEmpty then none
  else some (String.intercalate " AND " filters)

/-- The parameters that `requestHandler` passes to the
`searchSingleIndex` call of the Algolia client. -/
structure SearchParams where
  query : Option String
  filters : Option String
  hitsPerPage : Int
  page : Nat
  deriving DecidableEq, Repr

/-- The `searchParams` built inside `requestHandler` in `src/main.ts`:
`query: input.query || undefined`, `filters: buildFilters(input)`,
`hitsPerPage: Math.min(input.limit ?? 100, 100)`, `page: 0`. -/
def searchParams (input : Input) : SearchParams :=
  { query := input.query.orUndefined
  , filters := buildFilters input
  , hitsPerPage := min (input.limit.nullish 100) 100
  , page := 0 }

/-- The JSON payload attached to the single crawler request in
`src/main.ts` (an `Option` field renders as an absent key, matching
`JSON.stringify` dropping `undefined` properties). -/
structure Payload where
  query : Option String
  length : Nat
  offset : Nat
  filters : Option String
  restrictSearchableAttributes : List String
  attributesToHighlight : List String
  attributesToRetrieve : List String
  deriving DecidableEq, Repr

/-- The payload literal from `src/main.ts`: `query: input.query ||
undefined`, `length: 10`, `offset: 0`, `filters: buildFilters(input)`,
and the three constant attribute lists. -/
def payload (input : Input) : Payload :=
  { query := input.query.orUndefined
  , length := 10
  , offset := 0
  , filters := buildFilters input
  , restrictSearchableAttributes := []
  , attributesToHighlight := []
  , attributesToRetrieve :=
      ["objectId", "title", "name", "username", "userFullName", "stats",
       "description", "pictureUrl", "categories", "actorReviewRating",
       "actorReviewCount", "bookmarkCount"] }

/-- A raw hit returned by the remote index: untrusted, so every property
the handler reads is an arbitrary JS value (absent = `undef`). -/
structure Hit where
  objectID : JSValue := .undef
  categories : JSValue := .undef
  description : JSValue := .undef
  name : JSValue := .undef
  pictureUrl : JSValue := .undef
  stats : JSValue := .undef
  title : JSValue := .undef
  userFullName : JSValue := .undef
  username : JSValue := .undef
  deriving DecidableEq, Repr

/-- A dataset item as built by `requestHandler`; each field holds whatever
JS value the raw hit carried. -/
structure DatasetItem where
  actorId : JSValue
  categories : JSValue
  description : JSValue
  name : JSValue
  pictureUrl : JSValue
  stats : JSValue
  title : JSValue
  userFullName : JSValue
  username : JSValue
  deriving DecidableEq, Repr

/-- The hit-to-item mapping from `requestHandler` in `src/main.ts`: every
field is copied verbatim (`actorId: hit.objectID`, `categories:
hit.categories`, ...). -/
def toDatasetItem (hit : Hit) : DatasetItem :=
  { actorId := hit.objectID
  , categories := hit.categories
  , description := hit.description
  , name := hit.name
  , pictureUrl := hit.pictureUrl
  , stats := hit.stats
  , title := hit.title
  , userFullName := hit.userFullName
  , username := hit.username }

/-- `response.hits.map(...)` from `requestHandler`: the whole page mapped
through `toDatasetItem`, nothing filtered, nothing deduplicated. -/
def processPage (hits : List Hit) : List DatasetItem :=
  hits.map toDatasetItem

/-- The simulated remote index: the ordered list of records matching the
query. A `searchSingleIndex` call with the given parameters returns the
first `hitsPerPage` of them (page 0, all the source ever requests);
a negative `hitsPerPage` yields no hits. -/
def fetchedHits (input : Input) (store : List Hit) : List Hit :=
  store.take (searchParams input).hitsPerPage.toNat

/-- One execution of `requestHandler`: fetch page 0 from the index and
push the mapped items to the dataset. -/
def handleRequest (input : Input) (store : List Hit) : List DatasetItem :=
  processPage (fetchedHits input store)

/-- The crawler loop: process the queued requests in order, each
invocation of the handler appending its pushed items; the handler never
enqueues further requests, so the queue only shrinks. Returns the dataset
contents together with the number of handler invocations performed. -/
def crawlerRun (input : Input) (store : List Hit) :
    List Unit → List DatasetItem × Nat
  | [] => ([], 0)
  | _ :: rest =>
      let items := handleRequest input store
      let tail := crawlerRun input store rest
      (items ++ tail.1, tail.2 + 1)

/-- `crawler.run([...])` from `src/main.ts`: the queue holds exactly one
request. -/
def run (input : Input) (store : List Hit) : List DatasetItem × Nat :=
  crawlerRun input store [()]

/-- Replace a `null` field by an absent one, leaving everything else in
place; used to state that the source treats the two identically. -/
def StrField.nullToUndef : StrField → StrField
  | .null => .undef
  | f => f

/-- Replace a `null` numeric field by an absent one. -/
def NumField.nullToUndef : NumField → NumField
  | .null => .undef
  | f => f

/-- The input with every `null` field replaced by an absent field. -/
def Input.nullToUndef (i : Input) : Input :=
  { actorId := i.actorId.nullToUndef
  , limit := i.limit.nullToUndef
  , query := i.query.nullToUndef
  , username := i.username.nullToUndef }

/-- Replace an empty-string field by an absent one, leaving everything
else in place. -/
def StrField.emptyToUndef (f : StrField) : StrField :=
  match f with
  | .str s => if s = "" then .undef else .str s
  | f => f

/-- The input with every empty-string field replaced by an absent field
(the numeric `limit` has no empty-string value). -/
def Input.emptyToUndef (i : Input) : Input :=
  { actorId := i.actorId.emptyToUndef
  , limit := i.limit
  , query := i.query.emptyToUndef
  , username := i.username.emptyToUndef }

/-! ### Definitions taken from the words of the specification, for comparison -/

/-- Modelled from the spec: the escaping rule as the spec states it —
"backslash and double-quote characters in the value are each preceded by
a backslash; no other transformation". Every other character is left
unaltered. -/
def specEscapeChar (c : Char) : String :=
  if c = '\\' ∨ c = '"' then String.mk ['\\', c] else String.singleton c

/-- Modelled from the spec: the escaping rule of the spec applied to a
whole value. -/
def specEscape (s : String) : String :=
  String.join (s.data.map specEscapeChar)

/-! ### Observations on the terminal state, for the termination claim -/

/-- Whether the item count of the sink has reached the input limit ("the
limit is hit" in the claim); with no numeric limit set there is no limit
to hit. -/
def limitHit (input : Input) (items : List DatasetItem) : Bool :=
  match input.limit with
  | .num n => n ≤ (items.length : Int)
  | _ => false

/-- Whether the fetched page was short of the requested page size (the
condition "a short page is seen" of the claim, the exhaustion
heuristic). -/
def shortPage (input : Input) (store : List Hit) : Bool :=
  (fetchedHits input store).length < (searchParams input).hitsPerPage.toNat

/-! ### Concrete instances used as test vectors -/

/-- A hit whose identifier is the number `i`; distinct `i` give distinct
hits. -/
def mkHit (i : Nat) : Hit :=
  { objectID := .num i }

/-- A remote result set of 150 pairwise-distinct records. -/
def store150 : List Hit :=
  (List.range 150).map mkHit

/-- A hit that the simulated source can return repeatedly. -/
def dupHit : Hit :=
  { objectID := .str "x" }

/-- A raw record carrying no field at all — in particular no usable
identifier. -/
def noIdHit : Hit := {}

/-! ### Helper lemmas -/

/-- Outside the control range, the per-character escaping done by
`JSON.stringify` coincides with the rule of the spec (escape `\` and
`"`, touch nothing else). -/
lemma jsonEscapeChar_of_printable (c : Char) (hc : 0x20 ≤ c.toNat) :
    jsonEscapeChar c = specEscapeChar c := by
  have h8 : c ≠ '\x08' := by intro h; subst h; exact absurd hc (by decide)
  have h9 : c ≠ '\t' := by intro h; subst h; exact absurd hc (by decide)
  have h10 : c ≠ '\n' := by intro h; subst h; exact absurd hc (by decide)
  have h12 : c ≠ '\x0c' := by intro h; subst h; exact absurd hc (by decide)
  have h13 : c ≠ '\r' := by intro h; subst h; exact absurd hc (by decide)
  have h20 : ¬ c.toNat < 0x20 := by omega
  by_cases h1 : c = '"'
  · subst h1; decide
  · by_cases h2 : c = '\\'
    · subst h2; decide
    · simp [jsonEscapeChar, specEscapeChar, h1, h2, h8, h9, h10, h12, h13, h20]

/-- For a value free of control characters, `JSON.stringify` is exactly
the escape of the spec wrapped in double quotes. -/
lemma jsonStringify_of_printable (s : String) (hs : ∀ c ∈ s.data, 0x20 ≤ c.toNat) :
    jsonStringify s = "\"" ++ specEscape s ++ "\"" := by
  unfold jsonStringify specEscape
  rw [List.map_congr_left (fun c hc => jsonEscapeChar_of_printable c (hs c hc))]

/-- `buildFilters` when only `username` is truthy. -/
lemma buildFilters_username_only (input : Input)
    (ha : input.actorId.truthy = false) (hu : input.username.truthy = true) :
    buildFilters input = some ("username:" ++ jsonStringify input.username.getStr) := by
  simp [buildFilters, ha, hu, String.intercalate, String.intercalate.go]

/-- `buildFilters` when only `actorId` is truthy. -/
lemma buildFilters_actorId_only (input : Input)
    (ha : input.actorId.truthy = true) (hu : input.username.truthy = false) :
    buildFilters input = some ("objectID:" ++ jsonStringify input.actorId.getStr) := by
  simp [buildFilters, ha, hu, String.intercalate, String.intercalate.go]

lemma StrField.truthy_nullToUndef (f : StrField) :
    f.nullToUndef.truthy = f.truthy := by
  cases f <;> rfl

lemma StrField.getStr_nullToUndef (f : StrField) :
    f.nullToUndef.getStr = f.getStr := by
  cases f <;> rfl

lemma StrField.orUndefined_nullToUndef (f : StrField) :
    f.nullToUndef.orUndefined = f.orUndefined := by
  cases f <;> rfl

lemma NumField.nullish_nullToUndef (f : NumField) (d : Int) :
    f.nullToUndef.nullish d = f.nullish d := by
  cases f <;> rfl

lemma StrField.truthy_emptyToUndef (f : StrField) :
    f.emptyToUndef.truthy = f.truthy := by
  cases f with
  | str s =>
      rcases eq_or_ne s "" with hs | hs <;>
        simp [StrField.emptyToUndef, StrField.truthy, hs]
  | undef => rfl
  | null => rfl

lemma StrField.getStr_emptyToUndef (f : StrField) :
    f.emptyToUndef.getStr = f.getStr := by
  cases f with
  | str s =>
      rcases eq_or_ne s "" with hs | hs <;>
        simp [StrField.emptyToUndef, StrField.getStr, hs]
  | undef => rfl
  | null => rfl

lemma StrField.orUndefined_emptyToUndef (f : StrField) :
    f.emptyToUndef.orUndefined = f.orUndefined := by
  simp [StrField.orUndefined, StrField.truthy_emptyToUndef,
    StrField.getStr_emptyToUndef]

/-- `buildFilters` only looks at a field through its truthiness and its
string, so replacing `null` fields by absent ones changes nothing. -/
lemma buildFilters_nullToUndef (i : Input) :
    buildFilters i.nullToUndef = buildFilters i := by
  simp [buildFilters, Input.nullToUndef, StrField.truthy_nullToUndef,
    StrField.getStr_nullToUndef]

/-- Likewise for empty-string fields. -/
lemma buildFilters_emptyToUndef (i : Input) :
    buildFilters i.emptyToUndef = buildFilters i := by
  simp [buildFilters, Input.emptyToUndef, StrField.truthy_emptyToUndef,
    StrField.getStr_emptyToUndef]

/-- The hit-to-item mapping is injective: two hits mapping to the same
item agree on every field. -/
lemma toDatasetItem_injective : Function.Injective toDatasetItem := by
  intro a b h
  cases a
  cases b
  simpa [toDatasetItem, DatasetItem.mk.injEq, Hit.mk.injEq] using h

/-- The dataset produced by the run is the fetched page mapped through
the hit-to-item function. -/
lemma run_items (input : Input) (store : List Hit) :
    (ApifyStore.run input store).1 = (fetchedHits input store).map toDatasetItem := by
  simp [ApifyStore.run, crawlerRun, handleRequest, processPage]

/-- The run invokes the request handler exactly once. -/
lemma run_fetches (input : Input) (store : List Hit) :
    (ApifyStore.run input store).2 = 1 := by
  simp [ApifyStore.run, crawlerRun]

end ApifyStore

namespace ApifyStore

/-! ### Claims C4, C5, C6 — the filter builder -/

/-- C4 counterexample: for the single-field spec whose username value is
the newline character, `buildFilters` does not return the field followed
by the value escaped only at backslashes and double quotes — the clause
"no other character of v is altered" of the claim fails, because `JSON.stringify`
replaces the newline with the two-character sequence `\n`. -/
theorem C4_counterexample :
    buildFilters { username := .str "\n" } ≠
      some ("username:\"" ++ specEscape "\n" ++ "\"") := by
  decide

/-- C4 (amended): for every spec with exactly one present field whose
value is non-empty and free of control characters (below U+0020), `build`
returns exactly the field, a colon, and the value in double quotes with
each backslash and double quote preceded by a backslash and no other
character altered; control characters are additionally JSON-escaped,
which is the only deviation from the claim. -/
theorem C4_single_field_escaping (v : String) (hv : v ≠ "")
    (hc : ∀ c ∈ v.data, 0x20 ≤ c.toNat) :
    buildFilters { username := .str v } =
      some ("username:\"" ++ specEscape v ++ "\"") ∧
    buildFilters { actorId := .str v } =
      some ("objectID:\"" ++ specEscape v ++ "\"") := by
  have htr : (StrField.str v).truthy = true := by simp [StrField.truthy, hv]
  constructor
  · rw [buildFilters_username_only { username := .str v } rfl htr]
    rw [show (StrField.str v).getStr = v from rfl, jsonStringify_of_printable v hc]
    congr 1
  · rw [buildFilters_actorId_only { actorId := .str v } htr rfl]
    rw [show (StrField.str v).getStr = v from rfl, jsonStringify_of_printable v hc]
    congr 1

/-- C4 witness: the amended theorem applied to the test value
`user"name` taken from the unit tests of the repository. -/
theorem C4_single_field_escaping_witness :
    buildFilters { username := .str "user\"name" } =
      some ("username:\"" ++ specEscape "user\"name" ++ "\"") ∧
    buildFilters { actorId := .str "user\"name" } =
      some ("objectID:\"" ++ specEscape "user\"name" ++ "\"") :=
  C4_single_field_escaping "user\"name" (by decide) (by decide)

/-- C5: whenever both constraint fields are present (truthy), the two
per-field expressions are joined by the literal `" AND "`, with the
identifier expression (`objectID:`) before the username expression. -/
theorem C5_join_order (input : Input)
    (ha : input.actorId.truthy = true) (hu : input.username.truthy = true) :
    buildFilters input =
      some ("objectID:" ++ jsonStringify input.actorId.getStr ++ " AND " ++
            ("username:" ++ jsonStringify input.username.getStr)) := by
  simp [buildFilters, ha, hu, String.intercalate, String.intercalate.go,
    String.append_assoc]

/-- C5 witness: the joined filter for the test input of the repository. -/
theorem C5_join_order_witness :
    buildFilters { actorId := .str "N8vqwV9wL9wpIsLDz",
                   username := .str "silva95gustavo" } =
      some "objectID:\"N8vqwV9wL9wpIsLDz\" AND username:\"silva95gustavo\"" := by
  have h := C5_join_order
    { actorId := .str "N8vqwV9wL9wpIsLDz", username := .str "silva95gustavo" }
    (by decide) (by decide)
  exact h.trans (by decide)

/-- C6: when neither constraint field is present (truthy), `build` returns
the absent value (`none`, JavaScript `undefined`), not an empty string,
and both the search parameters and the request payload carry an absent
filter, which the remote call treats as "do not filter". -/
theorem C6_empty_spec (input : Input)
    (ha : input.actorId.truthy = false) (hu : input.username.truthy = false) :
    buildFilters input = none ∧
    (searchParams input).filters = none ∧
    (payload input).filters = none := by
  have hb : buildFilters input = none := by simp [buildFilters, ha, hu]
  exact ⟨hb, by simp [searchParams, hb], by simp [payload, hb]⟩

/-- C6 witness: the empty input record yields no filter anywhere. -/
theorem C6_empty_spec_witness :
    buildFilters {} = none ∧
    (searchParams {}).filters = none ∧
    (payload {}).filters = none :=
  C6_empty_spec {} (by decide) (by decide)

/-! ### Claim C7 — the request body -/

/-- C7: for every input, the request body carries the query text (absent
when no truthy query was given), the filter expression — a string exactly
when the filter spec has a present field, absent otherwise — a `length`
field equal to the fixed page size 10 the body requests, and the offset
0 of the page (the only page the source ever requests). -/
theorem C7_payload_shape (input : Input) :
    (payload input).query = input.query.orUndefined ∧
    (payload input).filters = buildFilters input ∧
    ((payload input).filters = none ↔
      input.actorId.truthy = false ∧ input.username.truthy = false) ∧
    (payload input).length = 10 ∧
    (payload input).offset = 0 := by
  refine ⟨rfl, rfl, ?_, rfl, rfl⟩
  show buildFilters input = none ↔ _
  cases ha : input.actorId.truthy <;> cases hu : input.username.truthy <;>
    simp [buildFilters, ha, hu]

/-! ### Claim C8 — `null` input fields behave as absent ones -/

/-- C8: replacing any `null` input field (`actorId`, `limit`, `query`,
`username`) by an absent one leaves the filter expression, the search
parameters (query text, filters, page size, page) and the request payload
unchanged: the code treats `null` and absence identically. -/
theorem C8_null_is_absent (input : Input) :
    buildFilters input.nullToUndef = buildFilters input ∧
    searchParams input.nullToUndef = searchParams input ∧
    payload input.nullToUndef = payload input := by
  refine ⟨buildFilters_nullToUndef input, ?_, ?_⟩
  · simp only [searchParams,
      show input.nullToUndef.query = input.query.nullToUndef from rfl,
      show input.nullToUndef.limit = input.limit.nullToUndef from rfl,
      StrField.orUndefined_nullToUndef, NumField.nullish_nullToUndef,
      buildFilters_nullToUndef]
  · simp only [payload,
      show input.nullToUndef.query = input.query.nullToUndef from rfl,
      StrField.orUndefined_nullToUndef, buildFilters_nullToUndef]

/-! ### Claim C10 — empty-string input fields behave as absent ones -/

/-- C10: replacing any empty-string input field by an absent one leaves
the filter expression, the search parameters and the request payload
unchanged; in particular a spec whose identifier and username are both
the empty string produces the absent filter, and an empty-string query is
sent as no query text. -/
theorem C10_empty_is_absent (input : Input) :
    buildFilters input.emptyToUndef = buildFilters input ∧
    searchParams input.emptyToUndef = searchParams input ∧
    payload input.emptyToUndef = payload input ∧
    buildFilters { actorId := .str "", username := .str "" } = none ∧
    (searchParams { query := .str "" }).query = none := by
  refine ⟨buildFilters_emptyToUndef input, ?_, ?_, by decide, by decide⟩
  · simp only [searchParams,
      show input.emptyToUndef.query = input.query.emptyToUndef from rfl,
      show input.emptyToUndef.limit = input.limit from rfl,
      StrField.orUndefined_emptyToUndef, buildFilters_emptyToUndef]
  · simp only [payload,
      show input.emptyToUndef.query = input.query.emptyToUndef from rfl,
      StrField.orUndefined_emptyToUndef, buildFilters_emptyToUndef]

/-! ### Claims C1, C2, C3, C9 — the run over the simulated remote index -/

set_option maxRecDepth 4000 in
/-- C1 counterexample: with limit 150 against a remote result set of 150
distinct records, the run does not return `min(150, 150) = 150` items —
it fetches a single page clamped to 100 and stops, so only 100 items come
back; the claimed continuation on a full, under-limit page never happens. -/
theorem C1_counterexample :
    ¬ ((ApifyStore.run { limit := .num 150 } store150).1.length
        = min 150 store150.length) := by
  decide

/-- C1 (amended): with limit `N`, the run fetches exactly one page of size
`min N 100` and returns exactly `min (min N 100) totalAvailable` items —
the images of the first that many records — with no continuation (exactly
one fetch) and no terminal status; when the remote records are distinct,
so are the returned items. -/
theorem C1_single_page (N : Nat) (store : List Hit) :
    (ApifyStore.run { limit := .num (N : Int) } store).1.length
      = min (min N 100) store.length ∧
    (ApifyStore.run { limit := .num (N : Int) } store).2 = 1 ∧
    (store.Nodup → (ApifyStore.run { limit := .num (N : Int) } store).1.Nodup) := by
  have hk : (searchParams { limit := .num (N : Int) }).hitsPerPage.toNat
      = min N 100 := by
    simp only [searchParams, NumField.nullish]
    omega
  refine ⟨?_, run_fetches _ _, ?_⟩
  · rw [run_items, List.length_map, fetchedHits, List.length_take, hk]
  · intro hnd
    rw [run_items]
    exact (List.Nodup.sublist (List.take_sublist _ _) hnd).map toDatasetItem_injective

/-- C1 witness: the amended theorem at limit 2 against three distinct
records: two items, one fetch, no duplicate. -/
theorem C1_single_page_witness :
    (ApifyStore.run { limit := .num 2 } [mkHit 0, mkHit 1, mkHit 2]).1.length
      = min (min 2 100) [mkHit 0, mkHit 1, mkHit 2].length ∧
    (ApifyStore.run { limit := .num 2 } [mkHit 0, mkHit 1, mkHit 2]).2 = 1 ∧
    (ApifyStore.run { limit := .num 2 } [mkHit 0, mkHit 1, mkHit 2]).1.Nodup := by
  have h := C1_single_page 2 [mkHit 0, mkHit 1, mkHit 2]
  exact ⟨h.1, h.2.1, h.2.2 (by decide)⟩

/-- C2 counterexample: when the remote source returns the same record
twice, the output contains two copies of it, not the single copy the
claim requires — no deduplication happens. -/
theorem C2_counterexample :
    ¬ ((ApifyStore.run {} [dupHit, dupHit]).1.count (toDatasetItem dupHit) = 1) := by
  decide

/-- C2 (amended): the run performs no deduplication: its output is exactly
the fetched page mapped in order through the hit-to-item function, and
every record keeps in the output the multiplicity it had on the fetched
page — a record returned twice appears twice. -/
theorem C2_no_dedup (input : Input) (store : List Hit) (h : Hit) :
    (ApifyStore.run input store).1 = (fetchedHits input store).map toDatasetItem ∧
    (ApifyStore.run input store).1.count (toDatasetItem h)
      = (fetchedHits input store).count h := by
  refine ⟨run_items _ _, ?_⟩
  rw [run_items]
  exact List.count_map_of_injective _ _ toDatasetItem_injective _

/-- C3 counterexample: a raw record with no usable identifier is not
excluded from the output (the page maps to a non-empty item list), and
its absent description is not coerced to the empty string — it stays
absent. -/
theorem C3_counterexample :
    ¬ (processPage [noIdHit] = []) ∧
    (toDatasetItem noIdHit).description ≠ JSValue.str "" := by
  decide

/-- C3 (amended): normalization never fails and never rejects: the item
count of a page always equals its hit count, every record — identifier or not —
contributes an item, and each item field is the corresponding raw field
copied verbatim (absent or mistyped values preserved, not coerced to zero
values); consequently per-record processing cannot abort the run. -/
theorem C3_verbatim (hits : List Hit) (h : Hit) (hm : h ∈ hits) :
    (processPage hits).length = hits.length ∧
    toDatasetItem h ∈ processPage hits ∧
    (toDatasetItem h).actorId = h.objectID ∧
    (toDatasetItem h).categories = h.categories ∧
    (toDatasetItem h).description = h.description ∧
    (toDatasetItem h).name = h.name ∧
    (toDatasetItem h).pictureUrl = h.pictureUrl ∧
    (toDatasetItem h).stats = h.stats ∧
    (toDatasetItem h).title = h.title ∧
    (toDatasetItem h).userFullName = h.userFullName ∧
    (toDatasetItem h).username = h.username :=
  ⟨List.length_map _ _, List.mem_map_of_mem _ hm,
    rfl, rfl, rfl, rfl, rfl, rfl, rfl, rfl, rfl⟩

/-- C3 witness: the amended theorem at the one-record page whose record
has no identifier: the item count is 1 and the identifier-less item is in
the output. -/
theorem C3_verbatim_witness :
    (processPage [noIdHit]).length = [noIdHit].length ∧
    toDatasetItem noIdHit ∈ processPage [noIdHit] := by
  have h := C3_verbatim [noIdHit] noIdHit (by decide)
  exact ⟨h.1, h.2.1⟩

set_option maxRecDepth 4000 in
/-- C9 counterexample: with limit 150 against 150 available records the
run performs its single fetch and stops even though no cause from the
list in the claim holds: the limit was not hit (100 < 150), the page was not
short (100 of 100 requested), and the code has no retry budget to exhaust
and saw no error — the claimed "terminates because either the limit is
hit, a short page is seen, the retry budget is exhausted, or a
non-retryable error occurs" is false here. -/
theorem C9_counterexample :
    (ApifyStore.run { limit := .num 150 } store150).2 = 1 ∧
    ¬ (limitHit { limit := .num 150 }
          (ApifyStore.run { limit := .num 150 } store150).1 = true ∨
        shortPage { limit := .num 150 } store150 = true) := by
  decide

/-- C9 (amended): the run always terminates, but unconditionally: it
performs exactly one fetch for its one queued request and returns at most
one page of items, regardless of the limit, of page fullness, and of how the
remote source behaves — not because a limit, exhaustion, retry or
error condition was reached. -/
theorem C9_single_fetch_termination (input : Input) (store : List Hit) :
    (ApifyStore.run input store).2 = 1 ∧
    (ApifyStore.run input store).1.length
      ≤ (searchParams input).hitsPerPage.toNat := by
  refine ⟨run_fetches _ _, ?_⟩
  rw [run_items, List.length_map]
  exact List.length_take_le _ _

end ApifyStore
